import Mathlib

/-!
Shallow embedding of the cluster lifecycle manager of
metalkube/cluster-api-provider-baremetal
(src/baremetal/baremetalcluster_manager.go), together with the pieces of
its data model and external collaborators the manager's code path reads.

Go conventions used throughout:
* a Go `error` value is `Option String` (`none` = nil error);
* a Go pointer field that the code only tests for nil / assigns is `Option`;
* Go slices are Lean lists;
* the wall clock (`metav1.Now()`) is an explicit `Nat` parameter `now`;
* methods that mutate the receiver become functions returning the new value.
-/

namespace CAPBM

/-- Go `capm3.APIEndpoint`: a control-plane endpoint `{Host, Port}`.
Go's `Port int` is modelled as `Int`. -/
structure APIEndpoint where
  host : String
  port : Int
  deriving Repr, DecidableEq

/-- The part of `capm3.BareMetalClusterSpec` the manager reads:
`ControlPlaneEndpoint`. -/
structure BareMetalClusterSpec where
  controlPlaneEndpoint : APIEndpoint
  deriving Repr, DecidableEq

/-- Go `capierrors.ClusterStatusError`: the error-reason enumeration of the
orchestration framework.  The manager only ever writes
`InvalidConfigurationClusterError`; the other members of the fixed set are
kept so the reason type is a genuine enumeration. -/
inductive ClusterStatusError where
  | invalidConfigurationClusterError
  | unsupportedChangeClusterError
  | createClusterError
  | updateClusterError
  | deleteClusterError
  deriving Repr, DecidableEq

/-- The part of `capm3.BareMetalClusterStatus` the manager writes:
readiness, last-updated timestamp and the paired error record.
`apiEndpoints` is the status's resolved-endpoint collection; the v1alpha3
types file is not part of the sources, so this field is modelled from the
spec ("for clusters — zero-or-more resolved API endpoints {host, port}");
the manager code under `src/` never touches it. -/
structure BareMetalClusterStatus where
  ready : Bool
  lastUpdated : Option Nat
  failureMessage : Option String
  failureReason : Option ClusterStatusError
  apiEndpoints : List APIEndpoint
  deriving Repr, DecidableEq

/-- The part of `metav1.ObjectMeta` the manager reads: identity, labels,
finalizers and (abstractly) owner references. -/
structure ObjectMeta where
  name : String
  ns : String
  labels : List (String × String)
  finalizers : List String
  deriving Repr, DecidableEq

/-- Go `capm3.BareMetalCluster`: the infrastructure resource. -/
structure BareMetalCluster where
  meta : ObjectMeta
  spec : BareMetalClusterSpec
  status : BareMetalClusterStatus
  deriving Repr, DecidableEq

/-- Go `capi.Cluster`: the owning (parent) resource; the manager only reads
its metadata. -/
structure Cluster where
  meta : ObjectMeta
  deriving Repr, DecidableEq

/-- Go `capi.Machine`: a dependent resource; descendant listing only reads
its metadata (namespace and labels). -/
structure Machine where
  meta : ObjectMeta
  deriving Repr, DecidableEq

/-- Go `capm3.ClusterFinalizer`: the provider's fixed finalizer token
(declared in the api package; its exact text is irrelevant to the
manager's logic, which treats it as an opaque constant). -/
def ClusterFinalizer : String := "baremetalcluster.infrastructure.cluster.x-k8s.io"

/-- Go `capi.ClusterLabelName`: the label key marking a resource as belonging
to a named cluster. -/
def ClusterLabelName : String := "cluster.x-k8s.io/cluster-name"

/-- Go `util.Contains(list, s)` from `sigs.k8s.io/cluster-api/util`:
string-slice membership. -/
def utilContains (list : List String) (strToSearch : String) : Bool :=
  list.contains strToSearch

/-- Go `util.Filter(list, s)` from `sigs.k8s.io/cluster-api/util`: returns
the slice with every occurrence of `s` dropped, order preserved. -/
def utilFilter (list : List String) (strToFilter : String) : List String :=
  list.filter (fun item => item != strToFilter)

/-- Go `errors.Wrapf(err, msg)` from `github.com/pkg/errors`: returns nil
when `err` is nil, otherwise annotates it with `msg`. -/
def wrapf (err : Option String) (msg : String) : Option String :=
  match err with
  | none => none
  | some e => some (msg ++ ": " ++ e)

/-- The manager pair: `ClusterManager` holds the parent `Cluster` and the
`BareMetalCluster` (the Go struct also carries the store client and a
logger, which are external collaborators and enter the model as explicit
arguments of the operations that use them). -/
structure ClusterManager where
  cluster : Cluster
  bareMetalCluster : BareMetalCluster
  deriving Repr, DecidableEq

/-- Go `NewClusterManager`: nil-checks `bareMetalCluster` first, then
`cluster`; on success returns the assembled manager and a nil error. -/
def NewClusterManager (cluster : Option Cluster)
    (bareMetalCluster : Option BareMetalCluster) :
    Option ClusterManager × Option String :=
  match bareMetalCluster with
  | none => (none, some "BareMetalCluster is required when creating a ClusterManager")
  | some bmc =>
    match cluster with
    | none => (none, some "Cluster is required when creating a ClusterManager")
    | some cl => (some { cluster := cl, bareMetalCluster := bmc }, none)

/-- Go `SetFinalizer`: appends `ClusterFinalizer` to the finalizer slice
unless already present.  A void method in Go (no error value). -/
def SetFinalizer (c : BareMetalCluster) : BareMetalCluster :=
  if utilContains c.meta.finalizers ClusterFinalizer then c
  else
    { c with meta :=
      { c.meta with finalizers := c.meta.finalizers ++ [ClusterFinalizer] } }

/-- Go `UnsetFinalizer`: filters `ClusterFinalizer` out of the finalizer
slice.  A void method in Go (no error value). -/
def UnsetFinalizer (c : BareMetalCluster) : BareMetalCluster :=
  { c with meta :=
    { c.meta with finalizers := utilFilter c.meta.finalizers ClusterFinalizer } }

/-- Go `setError(message, reason)`: writes both status error fields. -/
def setError (c : BareMetalCluster) (message : String)
    (reason : ClusterStatusError) : BareMetalCluster :=
  { c with status :=
    { c.status with failureMessage := some message, failureReason := some reason } }

/-- Go `clearError()`: if either error field is set, clears both; otherwise
leaves the status untouched. -/
def clearError (c : BareMetalCluster) : BareMetalCluster :=
  if c.status.failureMessage ≠ none ∨ c.status.failureReason ≠ none then
    { c with status :=
      { c.status with failureMessage := none, failureReason := none } }
  else c

/-- Modelled from the spec: `BareMetalClusterSpec.IsValid` lives in the
api package (`api/v1alpha3/baremetalcluster_types.go`), which is not under
`src/`.  The spec says Create "validates the infrastructure resource's
spec (e.g., non-empty endpoint host/URL fields where required)" and that a
valid control-plane endpoint means "non-empty host, non-zero port", so
validity is modelled as exactly that check, returning a Go error on
failure. -/
def IsValid (s : BareMetalClusterSpec) : Option String :=
  if s.controlPlaneEndpoint.host = "" ∨ s.controlPlaneEndpoint.port = 0 then
    some "Missing fields from ProviderSpec"
  else none

/-- Go `Create(ctx)`: validates the spec; on failure records the fixed
invalid-configuration error and returns the validation error, on success
clears any previous error and returns nil. -/
def Create (c : BareMetalCluster) : BareMetalCluster × Option String :=
  match IsValid c.spec with
  | some err =>
    (setError c "Invalid BareMetalCluster provided"
      ClusterStatusError.invalidConfigurationClusterError, some err)
  | none => (clearError c, none)

/-- Go `ControlPlaneEndpoint()`: reads the endpoint from the spec.  The Go
function declares `var err error` (nil) and, when the host is empty or the
port zero, logs and returns `nil, err` — that is, a nil endpoint slice
together with a NIL error.  Otherwise it returns the one-element endpoint
slice and a nil error. -/
def ControlPlaneEndpoint (c : BareMetalCluster) :
    Option (List APIEndpoint) × Option String :=
  let endPoint := c.spec.controlPlaneEndpoint
  let err : Option String := none
  if endPoint.host = "" ∨ endPoint.port = 0 then
    (none, err)
  else
    (some [{ host := endPoint.host, port := endPoint.port }], none)

/-- Go `Delete()`: a no-op returning a nil error. -/
def Delete : Option String := none

/-- Go `UpdateClusterStatus()`: calls `ControlPlaneEndpoint`, discarding the
endpoint slice; on a non-nil error sets `Ready` false, records the
invalid-configuration error and returns the error; otherwise sets `Ready`
true, stamps `LastUpdated` with the current time and returns nil.  `now`
is the value `metav1.Now()` would produce. -/
def UpdateClusterStatus (now : Nat) (c : BareMetalCluster) :
    BareMetalCluster × Option String :=
  match (ControlPlaneEndpoint c).2 with
  | some e =>
    let c1 := { c with status := { c.status with ready := false } }
    (setError c1 "Invalid ControlPlaneEndpoint values"
      ClusterStatusError.invalidConfigurationClusterError, some e)
  | none =>
    ({ c with status :=
      { c.status with ready := true, lastUpdated := some now } }, none)

/-- The external object store as the manager's code path sees it: the
machines it holds, whether the typed `List` call fails (and with what
error), and the outcome of `util.GetOwnerCluster` (an external library
call that resolves the infrastructure resource's owner references against
the store). -/
structure Store where
  machines : List Machine
  listError : Option String
  owner : Option Cluster
  ownerError : Option String
  deriving Repr, DecidableEq

/-- The store's typed `List` with namespace and exact-match label options:
returns the machines in `ns` carrying every requested label, or the
store's failure. -/
def storeList (store : Store) (ns : String) (lbls : List (String × String)) :
    List Machine × Option String :=
  match store.listError with
  | some e => ([], some e)
  | none =>
    (store.machines.filter
      (fun m => m.meta.ns == ns && lbls.all (fun kv => m.meta.labels.contains kv)),
     none)

/-- Go `util.GetOwnerCluster` as the environment provides it: the resolved
parent cluster or a resolution error. -/
def getOwnerCluster (store : Store) : Option Cluster × Option String :=
  match store.ownerError with
  | some e => (none, some e)
  | none => (store.owner, none)

/-- Go `listDescendants(ctx)`: resolves the owner cluster, then lists the
machines in the owner's namespace labeled `ClusterLabelName = owner.name`.
Faithful to the Go source: when the store's `List` call fails, the code
returns `errors.Wrapf(err, …)` applied to the EARLIER `err` variable —
which is nil at that point — so the wrap yields a nil error.  When owner
resolution yields no cluster and no error the Go code would dereference a
nil pointer; that path is outside every claim and is modelled as an
error result. -/
def listDescendants (store : Store) :
    List Machine × Option String :=
  let machines : List Machine := []
  match getOwnerCluster store with
  | (_, some e) => (machines, some e)
  | (none, none) => (machines, some "nil owner cluster")
  | (some cluster, none) =>
    let listOptions := [(ClusterLabelName, cluster.meta.name)]
    match storeList store cluster.meta.ns listOptions with
    | (_, some _) =>
      let errMsg := "failed to list BaremetalMachines for cluster " ++
        cluster.meta.ns ++ "/" ++ cluster.meta.name
      (machines, wrapf none errMsg)
    | (ms, none) => (ms, none)

/-- Go `CountDescendants(ctx)`: wraps `listDescendants`, propagating its
error, otherwise returning the length of the listed collection. -/
def CountDescendants (store : Store) : Nat × Option String :=
  match listDescendants store with
  | (_, some e) => (0, some e)
  | (descendants, none) => (descendants.length, none)

/-- The manager's operations on the infrastructure resource, for stating
invariants over arbitrary call sequences.  `Delete` does not touch the
resource; `Create` and `UpdateClusterStatus` are taken at their
state-changing component. -/
inductive Op where
  | createOp
  | updateStatusOp (now : Nat)
  | setErrorOp (message : String) (reason : ClusterStatusError)
  | clearErrorOp
  | setFinalizerOp
  | unsetFinalizerOp
  | deleteOp
  deriving Repr, DecidableEq

/-- Apply one manager operation to the resource. -/
def applyOp (c : BareMetalCluster) (op : Op) : BareMetalCluster :=
  match op with
  | Op.createOp => (Create c).1
  | Op.updateStatusOp now => (UpdateClusterStatus now c).1
  | Op.setErrorOp m r => setError c m r
  | Op.clearErrorOp => clearError c
  | Op.setFinalizerOp => SetFinalizer c
  | Op.unsetFinalizerOp => UnsetFinalizer c
  | Op.deleteOp => c

/-- Run a sequence of manager operations left to right. -/
def runOps (c : BareMetalCluster) (ops : List Op) : BareMetalCluster :=
  ops.foldl applyOp c

/-- The paired-error-fields invariant: `FailureMessage` and
`FailureReason` are both nil or both set. -/
def errFieldsPaired (st : BareMetalClusterStatus) : Prop :=
  (st.failureMessage = none ∧ st.failureReason = none) ∨
  (st.failureMessage ≠ none ∧ st.failureReason ≠ none)

instance (st : BareMetalClusterStatus) : Decidable (errFieldsPaired st) := by
  unfold errFieldsPaired
  infer_instance

/-! Concrete fixtures, used by witnesses and counterexamples. -/

/-- A bare metadata record for fixtures. -/
def metaFixture : ObjectMeta :=
  { name := "test1", ns := "myns", labels := [], finalizers := [] }

/-- A clean status: not ready, no timestamp, no error record, no
resolved endpoints. -/
def statusClean : BareMetalClusterStatus :=
  { ready := false, lastUpdated := none, failureMessage := none,
    failureReason := none, apiEndpoints := [] }

/-- A resource whose spec endpoint has an empty host and a zero port. -/
def bmcInvalid : BareMetalCluster :=
  { meta := metaFixture,
    spec := { controlPlaneEndpoint := { host := "", port := 0 } },
    status := statusClean }

/-- A resource whose spec endpoint is the scenario value
192.168.111.249:6443. -/
def bmcValid : BareMetalCluster :=
  { meta := metaFixture,
    spec := { controlPlaneEndpoint := { host := "192.168.111.249", port := 6443 } },
    status := statusClean }

/-- A parent cluster fixture. -/
def clusterFixture : Cluster :=
  { meta := { name := "mycluster", ns := "myns", labels := [], finalizers := [] } }

/-- A machine in the owner's namespace carrying the owning cluster's
label. -/
def machineLabeled : Machine :=
  { meta := { name := "m0", ns := "myns",
              labels := [(ClusterLabelName, "mycluster")], finalizers := [] } }

/-- A machine in another namespace (excluded from descendant listing). -/
def machineOtherNs : Machine :=
  { meta := { name := "m1", ns := "otherns",
              labels := [(ClusterLabelName, "mycluster")], finalizers := [] } }

/-- A machine without the owning cluster's label (excluded from
descendant listing). -/
def machineUnlabeled : Machine :=
  { meta := { name := "m2", ns := "myns", labels := [], finalizers := [] } }

/-- A healthy store holding one matching and two non-matching machines. -/
def storeHealthy : Store :=
  { machines := [machineLabeled, machineOtherNs, machineUnlabeled],
    listError := none, owner := some clusterFixture, ownerError := none }

/-- A store whose typed List call fails. -/
def storeListFails : Store :=
  { machines := [machineLabeled], listError := some "connection refused",
    owner := some clusterFixture, ownerError := none }

/-! Theorems settling the claims. -/

/-- C1, evaluation at the failing input: for the resource whose spec
endpoint has empty host and zero port, `UpdateClusterStatus` returns a NIL
error, sets `Status.Ready` to TRUE and leaves both error fields nil —
because `ControlPlaneEndpoint` returns a nil error on its invalid branch,
the claimed failure path is never taken. -/
theorem updateClusterStatus_invalid_spec_divergence :
    (UpdateClusterStatus 5 bmcInvalid).2 = none ∧
    ((UpdateClusterStatus 5 bmcInvalid).1).status.ready = true ∧
    ((UpdateClusterStatus 5 bmcInvalid).1).status.failureMessage = none ∧
    ((UpdateClusterStatus 5 bmcInvalid).1).status.failureReason = none := by
  decide

/-- C2: for every spec with non-empty host and non-zero port and an
initially clean error record, `UpdateClusterStatus` sets `Ready` true,
leaves both error fields nil, stamps `LastUpdated` with the current time
and returns a nil error. -/
theorem updateClusterStatus_valid_spec (now : Nat) (c : BareMetalCluster)
    (hh : c.spec.controlPlaneEndpoint.host ≠ "")
    (hp : c.spec.controlPlaneEndpoint.port ≠ 0)
    (hm : c.status.failureMessage = none)
    (hr : c.status.failureReason = none) :
    ((UpdateClusterStatus now c).1).status.ready = true ∧
    ((UpdateClusterStatus now c).1).status.failureMessage = none ∧
    ((UpdateClusterStatus now c).1).status.failureReason = none ∧
    ((UpdateClusterStatus now c).1).status.lastUpdated = some now ∧
    (UpdateClusterStatus now c).2 = none := by
  unfold UpdateClusterStatus ControlPlaneEndpoint
  by_cases h : c.spec.controlPlaneEndpoint.host = "" ∨ c.spec.controlPlaneEndpoint.port = 0
  · exact absurd h (by push_neg; exact ⟨hh, hp⟩)
  · simp [h, hm, hr]

/-- C2 witness: the valid-spec theorem applied to the 192.168.111.249:6443
fixture at time 7. -/
theorem updateClusterStatus_valid_spec_witness :
    ((UpdateClusterStatus 7 bmcValid).1).status.ready = true ∧
    ((UpdateClusterStatus 7 bmcValid).1).status.failureMessage = none ∧
    ((UpdateClusterStatus 7 bmcValid).1).status.failureReason = none ∧
    ((UpdateClusterStatus 7 bmcValid).1).status.lastUpdated = some 7 ∧
    (UpdateClusterStatus 7 bmcValid).2 = none :=
  updateClusterStatus_valid_spec 7 bmcValid (by decide) (by decide) rfl rfl

/-- C3 counterexample: with the scenario spec endpoint
192.168.111.249:6443 and an initially empty resolved-endpoint collection,
`UpdateClusterStatus` leaves the status holding ZERO resolved endpoints,
not one — the computed endpoint list is discarded, never written to the
status. -/
theorem updateClusterStatus_endpoint_not_stored :
    ((UpdateClusterStatus 5 bmcValid).1).status.apiEndpoints.length = 0 ∧
    ¬(((UpdateClusterStatus 5 bmcValid).1).status.apiEndpoints =
      [{ host := "192.168.111.249", port := 6443 }]) := by
  decide

/-- C3 amended: for every resource whose spec endpoint is
192.168.111.249:6443, `ControlPlaneEndpoint` computes exactly one resolved
endpoint with that host and port, and `UpdateClusterStatus` sets readiness
true and returns no error — but leaves the status's resolved-endpoint
collection exactly as it was (the computed list is discarded). -/
theorem updateClusterStatus_scenario_amended (now : Nat) (c : BareMetalCluster)
    (h : c.spec.controlPlaneEndpoint = { host := "192.168.111.249", port := 6443 }) :
    (ControlPlaneEndpoint c).1 = some [{ host := "192.168.111.249", port := 6443 }] ∧
    ((UpdateClusterStatus now c).1).status.ready = true ∧
    ((UpdateClusterStatus now c).1).status.apiEndpoints = c.status.apiEndpoints ∧
    (UpdateClusterStatus now c).2 = none := by
  unfold UpdateClusterStatus ControlPlaneEndpoint
  simp [h]

/-- C3 amended witness: the amended scenario theorem applied to the
192.168.111.249:6443 fixture at time 5. -/
theorem updateClusterStatus_scenario_amended_witness :
    (ControlPlaneEndpoint bmcValid).1 =
      some [{ host := "192.168.111.249", port := 6443 }] ∧
    ((UpdateClusterStatus 5 bmcValid).1).status.ready = true ∧
    ((UpdateClusterStatus 5 bmcValid).1).status.apiEndpoints =
      bmcValid.status.apiEndpoints ∧
    (UpdateClusterStatus 5 bmcValid).2 = none :=
  updateClusterStatus_scenario_amended 5 bmcValid rfl

/-- C4: `NewClusterManager` returns a nil manager together with a non-nil
error exactly when the parent cluster or the infrastructure resource is
nil; with both present it returns the assembled manager and a nil
error. -/
theorem newClusterManager_fails_iff (cl : Option Cluster)
    (bmc : Option BareMetalCluster) :
    (((NewClusterManager cl bmc).1 = none ∧ (NewClusterManager cl bmc).2 ≠ none) ↔
      (cl = none ∨ bmc = none)) ∧
    (∀ a b, cl = some a → bmc = some b →
      NewClusterManager cl bmc = (some { cluster := a, bareMetalCluster := b }, none)) := by
  cases bmc <;> cases cl <;> simp [NewClusterManager]

/-- C4 witness: construction succeeds on the concrete fixtures. -/
theorem newClusterManager_fails_iff_witness :
    NewClusterManager (some clusterFixture) (some bmcValid) =
      (some { cluster := clusterFixture, bareMetalCluster := bmcValid }, none) :=
  (newClusterManager_fails_iff (some clusterFixture) (some bmcValid)).2
    clusterFixture bmcValid rfl rfl

/-- Filtering a string out of a list it does not occur in leaves the list
unchanged. -/
theorem utilFilter_of_not_mem (l : List String) (t : String) (h : t ∉ l) :
    utilFilter l t = l := by
  unfold utilFilter
  apply List.filter_eq_self.mpr
  intro a ha
  simp only [bne_iff_ne, ne_eq]
  intro heq
  exact h (heq ▸ ha)

/-- C5: `SetFinalizer` is idempotent — applying it twice produces the same
resource as applying it once — and on a resource whose finalizer list does
not contain the cluster finalizer token, `UnsetFinalizer` is the identity.
Both are void methods in Go, so neither can return or signal an error. -/
theorem setFinalizer_idem_unsetFinalizer_noop (c : BareMetalCluster) :
    SetFinalizer (SetFinalizer c) = SetFinalizer c ∧
    (ClusterFinalizer ∉ c.meta.finalizers → UnsetFinalizer c = c) := by
  constructor
  · by_cases h : utilContains c.meta.finalizers ClusterFinalizer
    · simp [SetFinalizer, h]
    · simp only [SetFinalizer, h, if_false]
      have h2 : utilContains (c.meta.finalizers ++ [ClusterFinalizer])
          ClusterFinalizer = true := by
        simp [utilContains]
      simp [h2]
  · intro h
    simp only [UnsetFinalizer, utilFilter_of_not_mem c.meta.finalizers ClusterFinalizer h]

/-- C5 witness: on the fixture with an empty finalizer list, a double
`SetFinalizer` equals a single one, and `UnsetFinalizer` is the
identity. -/
theorem setFinalizer_idem_unsetFinalizer_noop_witness :
    SetFinalizer (SetFinalizer bmcValid) = SetFinalizer bmcValid ∧
    UnsetFinalizer bmcValid = bmcValid :=
  have h := setFinalizer_idem_unsetFinalizer_noop bmcValid
  ⟨h.1, h.2 (by decide)⟩

/-- C6: from any prior status, `setError` followed by `clearError` leaves
both error fields nil; and when both fields are already nil, `clearError`
is the identity. -/
theorem setError_clearError_clears (c : BareMetalCluster) (message : String)
    (reason : ClusterStatusError) :
    ((clearError (setError c message reason)).status.failureMessage = none ∧
     (clearError (setError c message reason)).status.failureReason = none) ∧
    (c.status.failureMessage = none → c.status.failureReason = none →
      clearError c = c) := by
  constructor
  · simp [clearError, setError]
  · intro hm hr
    simp [clearError, hm, hr]

/-- C6 witness: the round-trip theorem applied to a fixture that starts
with both fields nil. -/
theorem setError_clearError_clears_witness :
    ((clearError (setError bmcValid "abc"
        ClusterStatusError.invalidConfigurationClusterError)).status.failureMessage = none ∧
     (clearError (setError bmcValid "abc"
        ClusterStatusError.invalidConfigurationClusterError)).status.failureReason = none) ∧
    clearError bmcValid = bmcValid :=
  have h := setError_clearError_clears bmcValid "abc"
    ClusterStatusError.invalidConfigurationClusterError
  ⟨h.1, h.2 rfl rfl⟩

/-- C7: `Create` validates the spec; when validation fails it records the
fixed invalid-configuration reason and message into the status error
fields and returns the validation error, and when validation succeeds it
leaves both error fields nil (clearing any previous record) and returns no
error. -/
theorem create_validates_spec (c : BareMetalCluster) :
    (∀ e, IsValid c.spec = some e →
      (Create c).1.status.failureMessage = some "Invalid BareMetalCluster provided" ∧
      (Create c).1.status.failureReason =
        some ClusterStatusError.invalidConfigurationClusterError ∧
      (Create c).2 = some e) ∧
    (IsValid c.spec = none →
      (Create c).1.status.failureMessage = none ∧
      (Create c).1.status.failureReason = none ∧
      (Create c).2 = none) := by
  constructor
  · intro e he
    simp [Create, he, setError]
  · intro hv
    refine ⟨?_, ?_, ?_⟩ <;> simp only [Create, hv] <;>
      by_cases h : c.status.failureMessage ≠ none ∨ c.status.failureReason ≠ none <;>
      simp_all [clearError]

/-- C7 witness: `Create` on the invalid-spec fixture records the error and
returns it; on the valid-spec fixture it leaves the fields nil and
succeeds. -/
theorem create_validates_spec_witness :
    ((Create bmcInvalid).1.status.failureMessage =
      some "Invalid BareMetalCluster provided" ∧
     (Create bmcInvalid).1.status.failureReason =
      some ClusterStatusError.invalidConfigurationClusterError ∧
     (Create bmcInvalid).2 = some "Missing fields from ProviderSpec") ∧
    ((Create bmcValid).1.status.failureMessage = none ∧
     (Create bmcValid).1.status.failureReason = none ∧
     (Create bmcValid).2 = none) :=
  ⟨(create_validates_spec bmcInvalid).1 "Missing fields from ProviderSpec" (by decide),
   (create_validates_spec bmcValid).2 (by decide)⟩

/-- Helper: on the happy path (owner resolves, the store's List call
succeeds) `CountDescendants` returns exactly the number of machines in the
owner's namespace carrying the owner's cluster label, and a nil error. -/
theorem countDescendants_counts (store : Store) (cl : Cluster)
    (ho : store.owner = some cl) (hoe : store.ownerError = none)
    (hl : store.listError = none) :
    CountDescendants store =
      ((store.machines.filter (fun m =>
          m.meta.ns == cl.meta.ns &&
          [(ClusterLabelName, cl.meta.name)].all
            (fun kv => m.meta.labels.contains kv))).length,
       none) := by
  unfold CountDescendants listDescendants getOwnerCluster storeList
  simp [ho, hoe, hl]

/-- C8, evaluation at the failing input: on the healthy store the count
is the cardinality of the correctly labeled machines (one of three), but
when the store's List call fails, `CountDescendants` returns `(0, nil)` —
the listing failure is swallowed, because the Go code hands
`errors.Wrapf` the earlier, nil `err` variable rather than the List
call's error, and `Wrapf` of a nil error is nil. -/
theorem countDescendants_list_error_swallowed :
    CountDescendants storeHealthy = (1, none) ∧
    storeListFails.listError = some "connection refused" ∧
    CountDescendants storeListFails = (0, none) := by
  decide

/-- Helper: `ControlPlaneEndpoint` returns a nil Go error on every spec —
its invalid branch returns the freshly declared (nil) `err` variable. -/
theorem controlPlaneEndpoint_err_none (c : BareMetalCluster) :
    (ControlPlaneEndpoint c).2 = none := by
  unfold ControlPlaneEndpoint
  by_cases h : c.spec.controlPlaneEndpoint.host = "" ∨
      c.spec.controlPlaneEndpoint.port = 0 <;> simp [h]

/-- Helper: `clearError` always leaves the error fields paired (both nil
afterwards on either branch). -/
theorem errFieldsPaired_clearError (c : BareMetalCluster) :
    errFieldsPaired (clearError c).status := by
  unfold clearError errFieldsPaired
  by_cases hc : c.status.failureMessage ≠ none ∨ c.status.failureReason ≠ none
  · simp [hc]
  · push_neg at hc
    rw [if_neg]
    · exact Or.inl ⟨hc.1, hc.2⟩
    · push_neg
      exact hc

/-- Helper: every single manager operation preserves the paired-error
invariant. -/
theorem errFieldsPaired_applyOp (c : BareMetalCluster) (op : Op)
    (h : errFieldsPaired c.status) : errFieldsPaired (applyOp c op).status := by
  cases op with
  | createOp =>
    unfold applyOp Create
    cases hv : IsValid c.spec with
    | some e => exact Or.inr ⟨by simp [setError], by simp [setError]⟩
    | none => exact errFieldsPaired_clearError c
  | updateStatusOp now =>
    have h2 := controlPlaneEndpoint_err_none c
    unfold applyOp UpdateClusterStatus
    rw [h2]
    exact h
  | setErrorOp m r => exact Or.inr ⟨by simp [applyOp, setError], by simp [applyOp, setError]⟩
  | clearErrorOp => exact errFieldsPaired_clearError c
  | setFinalizerOp =>
    unfold applyOp SetFinalizer
    by_cases hc : utilContains c.meta.finalizers ClusterFinalizer <;> simp [hc] <;> exact h
  | unsetFinalizerOp => exact h
  | deleteOp => exact h

/-- Helper: running any operation sequence preserves the paired-error
invariant. -/
theorem errFieldsPaired_runOps (ops : List Op) (c : BareMetalCluster)
    (h : errFieldsPaired c.status) : errFieldsPaired (runOps c ops).status := by
  induction ops generalizing c with
  | nil => simpa [runOps] using h
  | cons op rest ih =>
    have h1 := errFieldsPaired_applyOp c op h
    simpa [runOps] using ih (applyOp c op) h1

/-- C9: starting from a status with both error fields nil, after any
sequence of the manager's operations the status's `FailureMessage` and
`FailureReason` are both set or both nil — never exactly one
populated. -/
theorem errFields_always_paired (ops : List Op) (c : BareMetalCluster)
    (hm : c.status.failureMessage = none) (hr : c.status.failureReason = none) :
    errFieldsPaired (runOps c ops).status :=
  errFieldsPaired_runOps ops c (Or.inl ⟨hm, hr⟩)

/-- C9 witness: the invariant theorem applied to a concrete sequence
exercising every operation, starting from the clean fixture. -/
theorem errFields_always_paired_witness :
    errFieldsPaired (runOps bmcValid
      [Op.setErrorOp "boom" ClusterStatusError.createClusterError,
       Op.createOp, Op.updateStatusOp 3, Op.clearErrorOp, Op.setFinalizerOp,
       Op.unsetFinalizerOp, Op.deleteOp]).status :=
  errFields_always_paired
    [Op.setErrorOp "boom" ClusterStatusError.createClusterError,
     Op.createOp, Op.updateStatusOp 3, Op.clearErrorOp, Op.setFinalizerOp,
     Op.unsetFinalizerOp, Op.deleteOp] bmcValid rfl rfl

/-- C10: `ControlPlaneEndpoint` returns a nil error for every spec — on
the invalid branch (empty host or zero port) it returns a nil endpoint
list together with a nil error — so `UpdateClusterStatus` never takes its
error branch: for every spec it returns a nil error and sets
`Status.Ready` to true. -/
theorem controlPlaneEndpoint_never_errors (now : Nat) (c : BareMetalCluster) :
    (ControlPlaneEndpoint c).2 = none ∧
    ((c.spec.controlPlaneEndpoint.host = "" ∨ c.spec.controlPlaneEndpoint.port = 0) →
      (ControlPlaneEndpoint c).1 = none) ∧
    (UpdateClusterStatus now c).2 = none ∧
    ((UpdateClusterStatus now c).1).status.ready = true := by
  have h2 := controlPlaneEndpoint_err_none c
  refine ⟨h2, ?_, ?_, ?_⟩
  · intro h
    unfold ControlPlaneEndpoint
    simp [h]
  · unfold UpdateClusterStatus
    rw [h2]
  · unfold UpdateClusterStatus
    rw [h2]

/-- C10 witness: the theorem applied at the empty-host, zero-port
fixture, discharging the invalid-spec implication. -/
theorem controlPlaneEndpoint_never_errors_witness :
    (ControlPlaneEndpoint bmcInvalid).2 = none ∧
    (ControlPlaneEndpoint bmcInvalid).1 = none ∧
    (UpdateClusterStatus 2 bmcInvalid).2 = none ∧
    ((UpdateClusterStatus 2 bmcInvalid).1).status.ready = true :=
  have h := controlPlaneEndpoint_never_errors 2 bmcInvalid
  ⟨h.1, h.2.1 (Or.inl rfl), h.2.2.1, h.2.2.2⟩

end CAPBM
